import Mathlib

/-!
Verification development for the comment-retrieval resilience layer of a
YouTube comments analyzer service (server/main.py, server/demo_data.py,
server/config.py).

The embedding models:
- the credential pool and its rotation (API_KEYS, current_api_key_index,
  rotate_api_key, get_youtube_client);
- the bounded retry wrapper exponential_backoff_retry, with the wrapped
  callable abstracted as a stream of call outcomes (success, quota-classified
  HttpError, other HttpError, generic exception) and sleeps counted instead
  of performed;
- the paginated fetch loops get_video_comments_raw and get_video_comments,
  with each page-fetch-with-retry abstracted as its resulting page or raised
  error, and wall-clock readings abstracted as a sequence of elapsed values
  consumed at the per-iteration timeout check;
- the demo fallback generator generate_demo_comments, with the random number
  generator and the current time abstracted as supplied functions.

The while-True page loop terminates because pages_processed is incremented on
every iteration and the loop exits as soon as it exceeds max_pages; the Lean
embedding makes this explicit with a fuel argument set to
max_pages + 1, whose zero case is unreachable from the top-level entry points.
-/

namespace YT

/-- Errors surfaced by the Python code: FastAPI HTTPException carrying a
status code and a detail string, or a re-raised generic Python exception. -/
inductive FetchErr where
  | httpException (status : Nat) (detail : String)
  | pyError (msg : String)
deriving DecidableEq

/-- The global API-key state of server/main.py: the API_KEYS list and the
current_api_key_index. -/
structure Pool where
  keys : List String
  idx : Nat
deriving DecidableEq

/-- rotate_api_key: if more than one key is configured, advance
current_api_key_index to (index + 1) mod len(API_KEYS) and return True;
otherwise return False and leave the index unchanged. -/
def rotate_api_key (p : Pool) : Bool × Pool :=
  if 1 < p.keys.length then (true, ⟨p.keys, (p.idx + 1) % p.keys.length⟩)
  else (false, p)

/-- get_youtube_client: raises HTTPException 500 when no keys are configured,
otherwise builds a client from API_KEYS[current_api_key_index] (the client is
identified with the key that parameterizes it). -/
def get_youtube_client (p : Pool) : Except FetchErr String :=
  if p.keys.length = 0 then
    .error (.httpException 500 "No YouTube API keys configured")
  else
    match p.keys.get? p.idx with
    | some k => .ok k
    | none => .error (.pyError "IndexError: list index out of range")

/-- Iterated rotation: apply rotate_api_key n times. -/
def rotateN (p : Pool) : Nat → Pool
  | 0 => p
  | n + 1 => rotateN (rotate_api_key p).2 n

/-- Outcome of one invocation of the callable wrapped by
exponential_backoff_retry: a successful page, an HttpError classified as
quota-exceeded by is_quota_exceeded_error, an HttpError not so classified, or
a generic exception. -/
inductive CallResult (α : Type) where
  | ok (v : α)
  | httpQuota
  | httpOther (msg : String)
  | exc (msg : String)
deriving DecidableEq

/-- Observable result of exponential_backoff_retry: the returned value or
raised error, the key-pool state afterwards, how many times the wrapped
callable was invoked, and how many times time.sleep ran. -/
structure RetryResult (α : Type) where
  result : Except FetchErr α
  pool : Pool
  calls : Nat
  sleeps : Nat

/-- Body of exponential_backoff_retry. The Python loop is
for attempt in range(max_retries); fuel is the number of iterations left,
so the current attempt is max_retries - fuel and the guard
attempt < max_retries - 1 is fuel - 1 > 0 at an iteration that holds fuel.
On a quota-classified HttpError the key pool is rotated; if rotation returns
True the loop continues (which advances attempt), otherwise HTTPException 429
QUOTA_EXCEEDED is raised. On other failures the loop sleeps and retries while
attempts remain, then raises. -/
def retryGo (outcomes : Nat → CallResult α) : Nat → Nat → Nat → Pool → RetryResult α
  | 0, callIdx, sleeps, pool =>
      ⟨.error (.httpException 500 "Max retries exceeded"), pool, callIdx, sleeps⟩
  | fuel + 1, callIdx, sleeps, pool =>
      match outcomes callIdx with
      | .ok v => ⟨.ok v, pool, callIdx + 1, sleeps⟩
      | .httpQuota =>
          match rotate_api_key pool with
          | (true, pool2) => retryGo outcomes fuel (callIdx + 1) sleeps pool2
          | (false, pool2) =>
              ⟨.error (.httpException 429 "QUOTA_EXCEEDED"), pool2, callIdx + 1, sleeps⟩
      | .httpOther m =>
          if 0 < fuel then retryGo outcomes fuel (callIdx + 1) (sleeps + 1) pool
          else ⟨.error (.httpException 500 ("YouTube API error: " ++ m)), pool, callIdx + 1, sleeps⟩
      | .exc m =>
          if 0 < fuel then retryGo outcomes fuel (callIdx + 1) (sleeps + 1) pool
          else ⟨.error (.pyError m), pool, callIdx + 1, sleeps⟩

/-- exponential_backoff_retry(func, max_retries, base_delay): execute the
callable with bounded retry; the callable is abstracted as the stream of
outcomes its successive invocations produce. -/
def exponential_backoff_retry (outcomes : Nat → CallResult α) (max_retries : Nat)
    (pool : Pool) : RetryResult α :=
  retryGo outcomes max_retries 0 0 pool

/-- config.py: MAX_RETRIES = 3. -/
def MAX_RETRIES : Nat := 3

/-- config.py: BASE_DELAY = 1 (second); only the fact that a sleep happens is
observable in this model, not its duration. -/
def BASE_DELAY : Nat := 1

/-- The snippet data of one commentThread item:
item.snippet.topLevelComment.snippet with its textDisplay, publishedAt,
authorDisplayName and optional likeCount fields. -/
structure Snippet where
  textDisplay : String
  publishedAt : String
  authorDisplayName : String
  likeCount : Option Nat
deriving DecidableEq

/-- One item of a fetched page: either a well-formed commentThread whose
snippet can be extracted, or a malformed item whose processing raises (the
per-item try/except then skips it). -/
inductive RawItem where
  | good (s : Snippet)
  | bad (msg : String)
deriving DecidableEq

/-- One commentThreads().list(...) response: its items array and whether the
nextPageToken field is present. -/
structure Page where
  items : List RawItem
  nextPageToken : Bool
deriving DecidableEq

/-- The dictionaries appended to the comments list: comment text, sentiment
label, timestamp, author and likes (stringified, defaulting to 0). -/
structure CommentRecord where
  comment : String
  sentiment : String
  timestamp : String
  author : String
  likes : String
deriving DecidableEq

/-- The stats dictionary built by get_video_comments_raw / get_video_comments;
api_key_used and total_api_keys are populated from the pool when the stats
record is created. -/
structure Stats where
  total_comments : Nat
  pages_processed : Nat
  max_comments_reached : Bool
  max_pages_reached : Bool
  timeout_reached : Bool
  api_key_used : Nat
  total_api_keys : Nat
deriving DecidableEq

/-- Building one comment record from a snippet; sent is the sentiment
labelling used by the surrounding loop (the raw fetch stores the placeholder
string, the legacy fetch stores analyze_sentiment of the text). -/
def mkRecord (sent : String → String) (s : Snippet) : CommentRecord :=
  ⟨s.textDisplay, sent s.textDisplay, s.publishedAt, s.authorDisplayName,
    toString (s.likeCount.getD 0)⟩

/-- The inner for-loop over response items: before converting each item the
code checks total_comments against max_comments and, when the limit is hit,
sets max_comments_reached and breaks; a malformed item raises inside the
per-item try and is skipped by the except/continue. Returns the comment list,
the updated total and whether the limit flag was set. -/
def processItems (sent : String → String) (maxComments : Nat) :
    List RawItem → List CommentRecord → Nat → List CommentRecord × Nat × Bool
  | [], acc, total => (acc, total, false)
  | item :: rest, acc, total =>
      if maxComments ≤ total then (acc, total, true)
      else
        match item with
        | .good s => processItems sent maxComments rest (acc ++ [mkRecord sent s]) (total + 1)
        | .bad _ => processItems sent maxComments rest acc total

/-- The while-True loop shared by get_video_comments_raw and
get_video_comments. fetchResult k is the outcome of the k-th page fetch
through exponential_backoff_retry (k = 0 is the first page, fetched before
the loop); elapsed i is the wall-clock elapsed value read at the timeout
check of iteration i (iteration i runs with pages_processed = i). Each
iteration checks the timeout, increments pages_processed and checks it
against maxPages, processes the current page items, and then either stops
(comment limit, missing nextPageToken) or fetches the next page, where an
HTTPException is caught and soft-stops the loop while a generic exception
propagates. The fuel argument only bounds recursion; called with
fuel = maxPages + 1 and pages = 0 the zero case is unreachable because every
iteration increments pages and exits once pages + 1 exceeds maxPages. -/
def fetchLoop (fetchResult : Nat → Except FetchErr Page) (elapsed : Nat → Nat)
    (sent : String → String) (maxComments maxPages tmo aku tak : Nat) :
    Nat → Page → List CommentRecord → Nat → Nat →
      Except FetchErr (List CommentRecord × Stats)
  | 0, _, _, _, _ => .error (.pyError "loop fuel exhausted")
  | fuel + 1, response, acc, total, pages =>
      if tmo < elapsed pages then
        .ok (acc, ⟨total, pages, false, false, true, aku, tak⟩)
      else if maxPages < pages + 1 then
        .ok (acc, ⟨total, pages + 1, false, true, false, aku, tak⟩)
      else
        match processItems sent maxComments response.items acc total with
        | (acc2, total2, limitHit) =>
          if limitHit then
            .ok (acc2, ⟨total2, pages + 1, true, false, false, aku, tak⟩)
          else if response.nextPageToken = false then
            .ok (acc2, ⟨total2, pages + 1, false, false, false, aku, tak⟩)
          else
            match fetchResult (pages + 1) with
            | .ok nextPage =>
                fetchLoop fetchResult elapsed sent maxComments maxPages tmo aku tak
                  fuel nextPage acc2 total2 (pages + 1)
            | .error (.httpException _ _) =>
                .ok (acc2, ⟨total2, pages + 1, false, false, false, aku, tak⟩)
            | .error (.pyError m) => .error (.pyError m)

/-- The outer try/except of both fetch functions: an HTTPException is
re-raised unchanged while any other exception is wrapped into
HTTPException 500 with a Failed-to-fetch detail. -/
def wrapOuter : Except FetchErr α → Except FetchErr α
  | .error (.pyError m) => .error (.httpException 500 ("Failed to fetch comments: " ++ m))
  | r => r

/-- get_video_comments_raw(video_id, max_comments, max_pages,
timeout_seconds): fetch the first page through the retry wrapper, then run
the page loop storing the placeholder sentiment on every record. The video id
only parameterizes the remote requests, which are abstracted by fetchResult. -/
def get_video_comments_raw (fetchResult : Nat → Except FetchErr Page)
    (elapsed : Nat → Nat) (pool : Pool)
    (max_comments max_pages timeout_seconds : Nat) :
    Except FetchErr (List CommentRecord × Stats) :=
  wrapOuter
    (match fetchResult 0 with
     | .error e => .error e
     | .ok response =>
         fetchLoop fetchResult elapsed (fun _ => "Not analyzed")
           max_comments max_pages timeout_seconds (pool.idx + 1) pool.keys.length
           (max_pages + 1) response [] 0 0)

/-- get_video_comments(video_id, max_comments, max_pages, timeout_seconds):
identical loop, except each record stores analyze_sentiment of the comment
text; the TextBlob scorer is abstracted as the analyze function. -/
def get_video_comments (analyze : String → String)
    (fetchResult : Nat → Except FetchErr Page) (elapsed : Nat → Nat)
    (pool : Pool) (max_comments max_pages timeout_seconds : Nat) :
    Except FetchErr (List CommentRecord × Stats) :=
  wrapOuter
    (match fetchResult 0 with
     | .error e => .error e
     | .ok response =>
         fetchLoop fetchResult elapsed analyze
           max_comments max_pages timeout_seconds (pool.idx + 1) pool.keys.length
           (max_pages + 1) response [] 0 0)

/-- demo_data.py DEMO_COMMENTS: the three sample comment pools keyed by
category. Apostrophes are written with the \x27 escape. -/
def DEMO_COMMENTS : List (String × List String) :=
  [("tech",
    ["This is amazing! The future of AI is here 🤖",
     "Great explanation, finally understood this concept",
     "Can you make a tutorial on this?",
     "This changed my perspective completely",
     "Wow, I never thought about it this way",
     "Thanks for sharing this knowledge!",
     "Mind blown! 🤯",
     "This is exactly what I was looking for",
     "Incredible work, keep it up!",
     "Very informative and well presented",
     "I disagree with some points but overall good",
     "Could you explain the technical details more?",
     "This is too complicated for beginners",
     "Love your content, subscribed!",
     "When will you release the next part?",
     "This doesn\x27t work for me, any suggestions?",
     "Perfect timing, I needed this for my project",
     "Your videos are always so helpful",
     "Can you cover more advanced topics?",
     "This is revolutionary technology!"]),
   ("entertainment",
    ["LMAO this is hilarious 😂",
     "I can\x27t stop watching this!",
     "This made my day better",
     "So funny, shared with all my friends",
     "I\x27m crying from laughing so hard",
     "This is pure gold!",
     "Best video I\x27ve seen all week",
     "You\x27re so talented!",
     "This deserves more views",
     "I\x27ve watched this 10 times already",
     "This is not funny at all",
     "Meh, could be better",
     "I don\x27t get the joke",
     "This is amazing content!",
     "Please make more like this",
     "This is so creative!",
     "I love your sense of humor",
     "This brightened my day",
     "Absolutely brilliant!",
     "This is why I love YouTube"]),
   ("educational",
    ["Thank you for this clear explanation",
     "This helped me pass my exam!",
     "Finally someone who explains it properly",
     "Very well structured lesson",
     "I wish my teacher explained like this",
     "This is better than my textbook",
     "Great examples and illustrations",
     "Could you add more practice problems?",
     "This is exactly what I needed to learn",
     "Your teaching style is excellent",
     "I\x27m confused about the second part",
     "Can you make a video about related topics?",
     "This is too fast for me to follow",
     "Perfect pace and explanation",
     "I learned more in 10 minutes than in class",
     "This should be shown in schools",
     "Very comprehensive coverage",
     "Thanks for making learning fun!",
     "This concept is now crystal clear",
     "Excellent educational content"])]

/-- The category actually used: an unknown category falls back to tech. -/
def normCategory (category : String) : String :=
  if (DEMO_COMMENTS.lookup category).isSome then category else "tech"

/-- The comment pool selected for a requested category. -/
def demoPool (category : String) : List String :=
  (DEMO_COMMENTS.lookup (normCategory category)).getD []

/-- The randomness and current-time inputs consumed by
generate_demo_comments, one value per generated record: the index picked by
random.choice over the pool and over the authors list, the value drawn by
random.randint(0, 100) for likes, and the isoformat timestamp derived from
datetime.now() minus the random offsets. Index picks are reduced modulo the
respective list length, which is exactly the guarantee random.choice gives. -/
structure DemoRng where
  pickComment : Nat → Nat
  pickAuthor : Nat → Nat
  pickLikes : Nat → Nat
  stampOf : Nat → String

/-- Zero-padded three-digit rendering used by the f-string User{i:03d}. -/
def pad3 (n : Nat) : String :=
  if n < 10 then "00" ++ toString n
  else if n < 100 then "0" ++ toString n
  else toString n

/-- The stats dictionary returned by generate_demo_comments; api_key_used and
total_api_keys hold the DEMO_MODE marker strings. -/
structure DemoStats where
  total_comments : Nat
  pages_processed : Nat
  max_comments_reached : Bool
  max_pages_reached : Bool
  timeout_reached : Bool
  api_key_used : String
  total_api_keys : String
  demo_mode : Bool
  demo_category : String
deriving DecidableEq

/-- generate_demo_comments(video_id, max_comments, category): pick the pool
for the category (falling back to tech), generate
min(max_comments, len(comment_pool)) records with randomly chosen comment
text, author and likes, a fabricated timestamp and the placeholder sentiment,
and report stats with max_comments_reached set when the generated count
reached max_comments, pages_processed = 1, DEMO_MODE markers and
demo_mode = True. -/
def generate_demo_comments (rng : DemoRng) (video_id : String)
    (max_comments : Nat) (category : String) : List CommentRecord × DemoStats :=
  let cat := normCategory category
  let comment_pool := demoPool category
  let authors := (List.range 100).map (fun i => "User" ++ pad3 (i + 1))
  let comments := (List.range (min max_comments comment_pool.length)).map
    (fun i =>
      ⟨comment_pool.getD (rng.pickComment i % comment_pool.length) "",
       "Not analyzed",
       rng.stampOf i,
       authors.getD (rng.pickAuthor i % authors.length) "",
       toString (rng.pickLikes i % 101)⟩)
  (comments,
   ⟨comments.length, 1, decide (max_comments ≤ comments.length), false, false,
    "DEMO_MODE", "DEMO_MODE", true, cat⟩)

/-- A well-formed sample item whose snippet carries the given text. -/
def goodItem (t : String) : RawItem :=
  .good ⟨t, "2024-01-01T00:00:00Z", "alice", some 3⟩

/-- The record the raw fetch builds from goodItem t. -/
def recOf (t : String) : CommentRecord :=
  ⟨t, "Not analyzed", "2024-01-01T00:00:00Z", "alice", "3"⟩

/-- A clock whose elapsed reading is always 0 (no time passes). -/
def elapsed0 : Nat → Nat := fun _ => 0

/-- A clock whose elapsed reading is always 1. -/
def elapsed1 : Nat → Nat := fun _ => 1

/-- A single-key pool. -/
def pool1 : Pool := ⟨["k1"], 0⟩

/-- A two-key pool. -/
def pool2 : Pool := ⟨["k1", "k2"], 0⟩

/-- Call outcomes for the retry wrapper: quota-classified failures on the
first three invocations, success on the fourth. -/
def c1Outcomes : Nat → CallResult Nat :=
  fun k => if k < 3 then .httpQuota else .ok 42

/-- A remote where the first page succeeds with one item and a continuation
token, and every next-page fetch fails with the quota signal. -/
def c2Fetch : Nat → Except FetchErr Page :=
  fun k => if k = 0 then .ok ⟨[goodItem "a"], true⟩
           else .error (.httpException 429 "QUOTA_EXCEEDED")

/-- A remote with two one-item pages, the second one last. -/
def c3Fetch : Nat → Except FetchErr Page :=
  fun k => if k = 0 then .ok ⟨[goodItem "a"], true⟩
           else .ok ⟨[goodItem "b"], false⟩

/-- A remote with a single three-item page and no continuation token. -/
def c4Fetch : Nat → Except FetchErr Page :=
  fun _ => .ok ⟨[goodItem "a", goodItem "b", goodItem "c"], false⟩

/-- A remote with two 100-item pages, the second one last. -/
def c6Fetch : Nat → Except FetchErr Page :=
  fun k => if k = 0 then .ok ⟨List.replicate 100 (goodItem "a"), true⟩
           else if k = 1 then .ok ⟨List.replicate 100 (goodItem "b"), false⟩
           else .error (.pyError "no page")

/-- A remote with one last page holding two well-formed items around one
malformed item. -/
def c10Fetch : Nat → Except FetchErr Page :=
  fun k => if k = 0 then .ok ⟨[goodItem "a", RawItem.bad "boom", goodItem "c"], false⟩
           else .error (.pyError "no page")

/-- A remote whose every page fetch fails with the quota signal. -/
def quotaFetch : Nat → Except FetchErr Page :=
  fun _ => .error (.httpException 429 "QUOTA_EXCEEDED")

/-- A fixed randomness source for the demo generator. -/
def rng0 : DemoRng := ⟨fun _ => 0, fun _ => 0, fun _ => 0, fun _ => "t"⟩

theorem pool_ext (p q : Pool) (hk : p.keys = q.keys) (hi : p.idx = q.idx) :
    p = q := by
  cases p; cases q; simp_all

theorem rotate_api_key_keys (p : Pool) : (rotate_api_key p).2.keys = p.keys := by
  unfold rotate_api_key; split <;> rfl

theorem rotateN_keys (n : Nat) : ∀ p : Pool, (rotateN p n).keys = p.keys := by
  induction n with
  | zero => intro p; rfl
  | succ n ih =>
      intro p
      show (rotateN (rotate_api_key p).2 n).keys = p.keys
      rw [ih, rotate_api_key_keys]

theorem rotateN_idx (n : Nat) : ∀ p : Pool, 1 < p.keys.length →
    p.idx < p.keys.length →
    (rotateN p n).idx = (p.idx + n) % p.keys.length := by
  induction n with
  | zero => intro p _ h2; simpa [rotateN] using (Nat.mod_eq_of_lt h2).symm
  | succ n ih =>
      intro p h1 h2
      have hr : rotate_api_key p = (true, ⟨p.keys, (p.idx + 1) % p.keys.length⟩) := by
        simp [rotate_api_key, h1]
      show (rotateN (rotate_api_key p).2 n).idx = (p.idx + (n + 1)) % p.keys.length
      rw [hr]
      rw [ih ⟨p.keys, (p.idx + 1) % p.keys.length⟩ (by simpa using h1)
        (Nat.mod_lt _ (by omega))]
      show ((p.idx + 1) % p.keys.length + n) % p.keys.length = _
      rw [Nat.mod_add_mod]
      have harith : p.idx + 1 + n = p.idx + (n + 1) := by omega
      rw [harith]

/-- C5: for a pool with more than one key, N rotations return to the starting
state, each rotation advances the index to (index + 1) mod length, and each
rotation reports true; for a single-key pool a rotation reports false and
changes nothing. -/
theorem c5_rotation_cycle :
    (∀ p : Pool, 1 < p.keys.length → p.idx < p.keys.length →
      rotateN p p.keys.length = p ∧
      (rotate_api_key p).2.idx = (p.idx + 1) % p.keys.length ∧
      (∀ k : Nat, (rotate_api_key (rotateN p k)).1 = true)) ∧
    (∀ p : Pool, p.keys.length = 1 → rotate_api_key p = (false, p)) := by
  constructor
  · intro p h1 h2
    refine ⟨?_, ?_, ?_⟩
    · refine pool_ext _ _ (rotateN_keys _ _) ?_
      rw [rotateN_idx _ _ h1 h2, Nat.add_mod_right, Nat.mod_eq_of_lt h2]
    · simp [rotate_api_key, h1]
    · intro k
      have hk : (rotateN p k).keys = p.keys := rotateN_keys _ _
      unfold rotate_api_key
      rw [hk]
      simp [h1]
  · intro p h
    have : ¬ 1 < p.keys.length := by omega
    simp [rotate_api_key, this]

theorem c5_witness :
    rotateN ⟨["a", "b"], 0⟩ 2 = ⟨["a", "b"], 0⟩ ∧
    rotate_api_key ⟨["a"], 0⟩ = (false, ⟨["a"], 0⟩) :=
  ⟨(c5_rotation_cycle.1 ⟨["a", "b"], 0⟩ (by decide) (by decide)).1,
   c5_rotation_cycle.2 ⟨["a"], 0⟩ (by decide)⟩

/-- C8 counterexample: on a pool with zero entries, rotate_api_key does not
fail; it returns the boolean false and leaves the state unchanged, contrary
to the claim that it fails with the PoolEmpty error. -/
theorem c8_counterexample : rotate_api_key ⟨[], 0⟩ = (false, ⟨[], 0⟩) := rfl

/-- C8 amended: on a pool with zero entries, active (get_youtube_client)
fails with the PoolEmpty error (HTTPException 500, no keys configured), while
rotate returns false without failing and without changing the state. -/
theorem c8_amended_empty_pool (p : Pool) (h : p.keys = []) :
    get_youtube_client p = .error (.httpException 500 "No YouTube API keys configured") ∧
    rotate_api_key p = (false, p) := by
  constructor
  · simp [get_youtube_client, h]
  · have : ¬ 1 < p.keys.length := by simp [h]
    simp [rotate_api_key, this]

theorem c8_amended_witness :
    get_youtube_client ⟨[], 0⟩ = .error (.httpException 500 "No YouTube API keys configured") ∧
    rotate_api_key ⟨[], 0⟩ = (false, ⟨[], 0⟩) :=
  c8_amended_empty_pool ⟨[], 0⟩ rfl

theorem retryGo_all_quota {α : Type} (outcomes : Nat → CallResult α) :
    ∀ (fuel callIdx sleeps : Nat) (pool : Pool), 1 < pool.keys.length →
      (∀ i, callIdx ≤ i → i < callIdx + fuel → outcomes i = .httpQuota) →
      (retryGo outcomes fuel callIdx sleeps pool).result =
        .error (.httpException 500 "Max retries exceeded") ∧
      (retryGo outcomes fuel callIdx sleeps pool).calls = callIdx + fuel ∧
      (retryGo outcomes fuel callIdx sleeps pool).sleeps = sleeps := by
  intro fuel
  induction fuel with
  | zero => intro callIdx sleeps pool _ _; exact ⟨rfl, rfl, rfl⟩
  | succ n ih =>
      intro callIdx sleeps pool h1 hq
      have hout : outcomes callIdx = .httpQuota := hq callIdx le_rfl (by omega)
      have hr : rotate_api_key pool =
          (true, ⟨pool.keys, (pool.idx + 1) % pool.keys.length⟩) := by
        simp [rotate_api_key, h1]
      have hrec := ih (callIdx + 1) sleeps ⟨pool.keys, (pool.idx + 1) % pool.keys.length⟩
        (by simpa using h1) (fun i hi hi2 => hq i (by omega) (by omega))
      simp only [retryGo, hout, hr]
      exact ⟨hrec.1, by rw [hrec.2.1]; omega, hrec.2.2⟩

/-- C1 counterexample: with a two-key pool and max_retries = 3, three
consecutive quota-classified failures exhaust all attempts even though every
rotation succeeds, ending in the Max-retries-exceeded error without the
fourth invocation (which would have succeeded) ever happening; so a
quota-exhausted failure does consume a retry attempt, contrary to the claim. -/
theorem c1_counterexample :
    c1Outcomes 0 = CallResult.httpQuota ∧ c1Outcomes 1 = CallResult.httpQuota ∧
    c1Outcomes 2 = CallResult.httpQuota ∧ c1Outcomes 3 = CallResult.ok 42 ∧
    (exponential_backoff_retry c1Outcomes 3 pool2).result =
      .error (.httpException 500 "Max retries exceeded") ∧
    (exponential_backoff_retry c1Outcomes 3 pool2).calls = 3 ∧
    (exponential_backoff_retry c1Outcomes 3 pool2).sleeps = 0 :=
  ⟨rfl, rfl, rfl, rfl, rfl, rfl, rfl⟩

/-- C1 amended: when an attempt fails with a quota-exhausted error and
rotation succeeds, the operation is retried immediately under the new
credential without sleeping, but the retry consumes an attempt: quota
failures count against max_retries exactly like other failures, so
max_retries consecutive quota failures end the call with the
Max-retries-exceeded error after exactly max_retries invocations and zero
sleeps. -/
theorem c1_amended_quota_consumes_attempts {α : Type}
    (outcomes : Nat → CallResult α) (max_retries : Nat) (pool : Pool)
    (hpool : 1 < pool.keys.length)
    (hq : ∀ i, i < max_retries → outcomes i = CallResult.httpQuota) :
    (exponential_backoff_retry outcomes max_retries pool).result =
      .error (.httpException 500 "Max retries exceeded") ∧
    (exponential_backoff_retry outcomes max_retries pool).calls = max_retries ∧
    (exponential_backoff_retry outcomes max_retries pool).sleeps = 0 := by
  have h := retryGo_all_quota outcomes max_retries 0 0 pool hpool
    (fun i _ h2 => hq i (by omega))
  simpa [exponential_backoff_retry] using h

theorem processItems_total_le (sent : String → String) (mc : Nat) :
    ∀ (items : List RawItem) (acc : List CommentRecord) (total : Nat),
      total ≤ mc → (processItems sent mc items acc total).2.1 ≤ mc := by
  intro items
  induction items with
  | nil => intro acc total h; exact h
  | cons item rest ih =>
      intro acc total h
      by_cases hc : mc ≤ total
      · simpa [processItems, hc] using h
      · cases item with
        | good s =>
            simp only [processItems, if_neg hc]
            exact ih _ (total + 1) (by omega)
        | bad m =>
            simp only [processItems, if_neg hc]
            exact ih _ total h

theorem processItems_len (sent : String → String) (mc : Nat) :
    ∀ (items : List RawItem) (acc : List CommentRecord) (total : Nat),
      acc.length = total →
      (processItems sent mc items acc total).1.length =
        (processItems sent mc items acc total).2.1 := by
  intro items
  induction items with
  | nil => intro acc total h; exact h
  | cons item rest ih =>
      intro acc total h
      by_cases hc : mc ≤ total
      · simpa [processItems, hc] using h
      · cases item with
        | good s =>
            simp only [processItems, if_neg hc]
            exact ih _ (total + 1) (by simp [h])
        | bad m =>
            simp only [processItems, if_neg hc]
            exact ih _ total h

theorem fetchLoop_ok_pages (f : Nat → Except FetchErr Page) (el : Nat → Nat)
    (sent : String → String) (mc mp tmo aku tak : Nat) :
    ∀ (fuel : Nat) (resp : Page) (acc : List CommentRecord) (total pages : Nat)
      (out : List CommentRecord) (st : Stats), pages ≤ mp →
      fetchLoop f el sent mc mp tmo aku tak fuel resp acc total pages = .ok (out, st) →
      st.pages_processed ≤ mp + 1 ∧
        (st.max_pages_reached = false → st.pages_processed ≤ mp) ∧
        (st.max_pages_reached = true → st.pages_processed = mp + 1) := by
  intro fuel
  induction fuel with
  | zero =>
      intro resp acc total pages out st hp h
      exact absurd h (by simp [fetchLoop])
  | succ n ih =>
      intro resp acc total pages out st hp h
      simp only [fetchLoop] at h
      split at h
      · simp only [Except.ok.injEq, Prod.mk.injEq] at h
        obtain ⟨-, hst⟩ := h
        subst hst
        exact ⟨Nat.le_succ_of_le hp, fun _ => hp, fun hflag => by simp at hflag⟩
      · split at h
        next hpl =>
          simp only [Except.ok.injEq, Prod.mk.injEq] at h
          obtain ⟨-, hst⟩ := h
          subst hst
          refine ⟨by show pages + 1 ≤ mp + 1; omega, fun hflag => ?_, ?_⟩
          · simp at hflag
          · intro hflag
            show pages + 1 = mp + 1
            omega
        next hpl =>
          split at h
          next hhit =>
            simp only [Except.ok.injEq, Prod.mk.injEq] at h
            obtain ⟨-, hst⟩ := h
            subst hst
            exact ⟨by show pages + 1 ≤ mp + 1; omega,
              fun _ => by show pages + 1 ≤ mp; omega,
              fun hflag => by simp at hflag⟩
          next hhit =>
            split at h
            · simp only [Except.ok.injEq, Prod.mk.injEq] at h
              obtain ⟨-, hst⟩ := h
              subst hst
              exact ⟨by show pages + 1 ≤ mp + 1; omega,
                fun _ => by show pages + 1 ≤ mp; omega,
                fun hflag => by simp at hflag⟩
            · split at h
              next nextPage hf =>
                exact ih _ _ _ _ _ _ (by omega) h
              next s d hf =>
                simp only [Except.ok.injEq, Prod.mk.injEq] at h
                obtain ⟨-, hst⟩ := h
                subst hst
                exact ⟨by show pages + 1 ≤ mp + 1; omega,
                  fun _ => by show pages + 1 ≤ mp; omega,
                  fun hflag => by simp at hflag⟩
              next m hf => exact absurd h (by simp)

theorem fetchLoop_flag_fetch_ok (f : Nat → Except FetchErr Page) (el : Nat → Nat)
    (sent : String → String) (mc mp tmo aku tak : Nat) :
    ∀ (fuel : Nat) (resp : Page) (acc : List CommentRecord) (total pages : Nat)
      (out : List CommentRecord) (st : Stats), pages ≤ mp →
      f pages = Except.ok resp →
      fetchLoop f el sent mc mp tmo aku tak fuel resp acc total pages = .ok (out, st) →
      st.max_pages_reached = true → ∃ p, f mp = Except.ok p := by
  intro fuel
  induction fuel with
  | zero =>
      intro resp acc total pages out st hp hres h hflag
      exact absurd h (by simp [fetchLoop])
  | succ n ih =>
      intro resp acc total pages out st hp hres h hflag
      simp only [fetchLoop] at h
      split at h
      · simp only [Except.ok.injEq, Prod.mk.injEq] at h
        obtain ⟨-, hst⟩ := h
        subst hst
        simp at hflag
      · split at h
        next hpl =>
          have hpm : pages = mp := by omega
          exact ⟨resp, hpm ▸ hres⟩
        next hpl =>
          split at h
          next hhit =>
            simp only [Except.ok.injEq, Prod.mk.injEq] at h
            obtain ⟨-, hst⟩ := h
            subst hst
            simp at hflag
          next hhit =>
            split at h
            · simp only [Except.ok.injEq, Prod.mk.injEq] at h
              obtain ⟨-, hst⟩ := h
              subst hst
              simp at hflag
            · split at h
              next nextPage hf =>
                exact ih nextPage _ _ (pages + 1) out st (by omega) hf h hflag
              next s d hf =>
                simp only [Except.ok.injEq, Prod.mk.injEq] at h
                obtain ⟨-, hst⟩ := h
                subst hst
                simp at hflag
              next m hf => exact absurd h (by simp)

theorem fetchLoop_limit_page_content_irrelevant (el : Nat → Nat)
    (sent : String → String) (mc mp tmo aku tak : Nat) :
    ∀ (fuel : Nat) (f g : Nat → Except FetchErr Page) (resp1 resp2 : Page)
      (acc : List CommentRecord) (total pages : Nat),
      (∀ k, k < mp → f k = g k) →
      (f mp = g mp ∨ ((∃ p, f mp = Except.ok p) ∧ (∃ q, g mp = Except.ok q))) →
      (pages = mp ∨ resp1 = resp2) →
      fetchLoop f el sent mc mp tmo aku tak fuel resp1 acc total pages =
        fetchLoop g el sent mc mp tmo aku tak fuel resp2 acc total pages := by
  intro fuel
  induction fuel with
  | zero => intro f g r1 r2 acc total pages _ _ _; rfl
  | succ n ih =>
      intro f g r1 r2 acc total pages hagree hmp hresp
      by_cases hpm : pages = mp
      · subst hpm
        simp only [fetchLoop]
        by_cases ht : tmo < el pages
        · simp [ht]
        · have hlt : pages < pages + 1 := Nat.lt_succ_self pages
          simp [ht, hlt]
      · have hre : r1 = r2 := hresp.resolve_left hpm
        subst hre
        simp only [fetchLoop]
        by_cases ht : tmo < el pages
        · simp [ht]
        · simp only [if_neg ht]
          by_cases hpl : mp < pages + 1
          · simp [hpl]
          · simp only [if_neg hpl]
            by_cases hhit : (processItems sent mc r1.items acc total).2.2 = true
            · simp [hhit]
            · simp only [if_neg hhit]
              by_cases htok : r1.nextPageToken = false
              · simp [htok]
              · simp only [if_neg htok]
                by_cases hk : pages + 1 < mp
                · have hfg : f (pages + 1) = g (pages + 1) := hagree _ hk
                  rw [hfg]
                  cases hgv : g (pages + 1) with
                  | ok next =>
                      exact ih f g next next _ _ (pages + 1) hagree hmp (Or.inr rfl)
                  | error e =>
                      cases e with
                      | httpException s d => rfl
                      | pyError m => rfl
                · have hkm : pages + 1 = mp := by omega
                  rcases hmp with heq | ⟨⟨p, hp⟩, ⟨q, hq⟩⟩
                  · rw [hkm, heq]
                    cases hgv : g mp with
                    | ok next =>
                        exact ih f g next next _ _ mp hagree (Or.inl heq) (Or.inl rfl)
                    | error e =>
                        cases e with
                        | httpException s d => rfl
                        | pyError m => rfl
                  · rw [hkm, hp, hq]
                    exact ih f g p q _ _ mp hagree
                      (Or.inr ⟨⟨p, hp⟩, ⟨q, hq⟩⟩) (Or.inl rfl)

theorem fetchLoop_ok_len (f : Nat → Except FetchErr Page) (el : Nat → Nat)
    (sent : String → String) (mc mp tmo aku tak : Nat) :
    ∀ (fuel : Nat) (resp : Page) (acc : List CommentRecord) (total pages : Nat)
      (out : List CommentRecord) (st : Stats),
      acc.length = total → total ≤ mc →
      fetchLoop f el sent mc mp tmo aku tak fuel resp acc total pages = .ok (out, st) →
      out.length ≤ mc := by
  intro fuel
  induction fuel with
  | zero =>
      intro resp acc total pages out st hlen hle h
      exact absurd h (by simp [fetchLoop])
  | succ n ih =>
      intro resp acc total pages out st hlen hle h
      have hlen2 : (processItems sent mc resp.items acc total).1.length =
          (processItems sent mc resp.items acc total).2.1 :=
        processItems_len sent mc resp.items acc total hlen
      have hle2 : (processItems sent mc resp.items acc total).2.1 ≤ mc :=
        processItems_total_le sent mc resp.items acc total hle
      simp only [fetchLoop] at h
      split at h
      · simp only [Except.ok.injEq, Prod.mk.injEq] at h
        obtain ⟨hout, -⟩ := h
        subst hout
        omega
      · split at h
        next hpl =>
          simp only [Except.ok.injEq, Prod.mk.injEq] at h
          obtain ⟨hout, -⟩ := h
          subst hout
          omega
        next hpl =>
          split at h
          next hhit =>
            simp only [Except.ok.injEq, Prod.mk.injEq] at h
            obtain ⟨hout, -⟩ := h
            subst hout
            omega
          next hhit =>
            split at h
            · simp only [Except.ok.injEq, Prod.mk.injEq] at h
              obtain ⟨hout, -⟩ := h
              subst hout
              omega
            · split at h
              next nextPage hf => exact ih _ _ _ _ _ _ hlen2 hle2 h
              next s d hf =>
                simp only [Except.ok.injEq, Prod.mk.injEq] at h
                obtain ⟨hout, -⟩ := h
                subst hout
                omega
              next m hf => exact absurd h (by simp)

theorem fetchLoop_error_pyError (f : Nat → Except FetchErr Page) (el : Nat → Nat)
    (sent : String → String) (mc mp tmo aku tak : Nat) :
    ∀ (fuel : Nat) (resp : Page) (acc : List CommentRecord) (total pages : Nat)
      (e : FetchErr),
      fetchLoop f el sent mc mp tmo aku tak fuel resp acc total pages = .error e →
      ∃ m, e = FetchErr.pyError m := by
  intro fuel
  induction fuel with
  | zero =>
      intro resp acc total pages e h
      simp only [fetchLoop, Except.error.injEq] at h
      exact ⟨_, h.symm⟩
  | succ n ih =>
      intro resp acc total pages e h
      simp only [fetchLoop] at h
      split at h
      · exact absurd h (by simp)
      · split at h
        · exact absurd h (by simp)
        · split at h
          · exact absurd h (by simp)
          · split at h
            · exact absurd h (by simp)
            · split at h
              next nextPage hf => exact ih _ _ _ _ _ h
              next s d hf => exact absurd h (by simp)
              next m hf =>
                simp only [Except.error.injEq] at h
                exact ⟨_, h.symm⟩

theorem wrapOuter_ok_iff {α : Type} (r : Except FetchErr α) (v : α) :
    wrapOuter r = .ok v ↔ r = .ok v := by
  cases r with
  | ok a => simp [wrapOuter]
  | error e =>
      cases e with
      | httpException s d => simp [wrapOuter]
      | pyError m => simp [wrapOuter]

theorem wrapOuter_429 {α : Type} (r : Except FetchErr α) (d : String)
    (h : wrapOuter r = .error (.httpException 429 d)) :
    r = .error (.httpException 429 d) := by
  cases r with
  | ok a => simp [wrapOuter] at h
  | error e =>
      cases e with
      | httpException s d2 =>
          simp only [wrapOuter] at h
          exact h
      | pyError m =>
          simp only [wrapOuter, Except.error.injEq] at h
          cases h

theorem get_video_comments_raw_ok_of (f : Nat → Except FetchErr Page)
    (el : Nat → Nat) (pool : Pool) (mc mp tmo : Nat) (resp : Page)
    (r : List CommentRecord × Stats) (h0 : f 0 = Except.ok resp)
    (h1 : fetchLoop f el (fun _ => "Not analyzed") mc mp tmo (pool.idx + 1)
      pool.keys.length (mp + 1) resp [] 0 0 = .ok r) :
    get_video_comments_raw f el pool mc mp tmo = .ok r := by
  unfold get_video_comments_raw
  rw [h0]
  exact (wrapOuter_ok_iff _ _).mpr h1

theorem get_video_comments_ok_of (analyze : String → String)
    (f : Nat → Except FetchErr Page) (el : Nat → Nat) (pool : Pool)
    (mc mp tmo : Nat) (resp : Page)
    (r : List CommentRecord × Stats) (h0 : f 0 = Except.ok resp)
    (h1 : fetchLoop f el analyze mc mp tmo (pool.idx + 1)
      pool.keys.length (mp + 1) resp [] 0 0 = .ok r) :
    get_video_comments analyze f el pool mc mp tmo = .ok r := by
  unfold get_video_comments
  rw [h0]
  exact (wrapOuter_ok_iff _ _).mpr h1

theorem c1_amended_witness :
    (exponential_backoff_retry (fun _ => (CallResult.httpQuota : CallResult Nat)) 3 pool2).result =
      .error (.httpException 500 "Max retries exceeded") ∧
    (exponential_backoff_retry (fun _ => (CallResult.httpQuota : CallResult Nat)) 3 pool2).calls = 3 ∧
    (exponential_backoff_retry (fun _ => (CallResult.httpQuota : CallResult Nat)) 3 pool2).sleeps = 0 :=
  c1_amended_quota_consumes_attempts _ 3 pool2 (by decide) (fun i _ => rfl)

/-- C2 counterexample: when the first page succeeds and the next-page fetch
fails with the quota signal (HTTPException 429 QUOTA_EXCEEDED), the fetch
does not propagate the signal: it soft-stops and returns the partial results
of the first page with no flags set, contrary to the claim. -/
theorem c2_counterexample :
    c2Fetch 1 = .error (.httpException 429 "QUOTA_EXCEEDED") ∧
    get_video_comments_raw c2Fetch elapsed0 pool1 500 5 30 =
      .ok ([recOf "a"], ⟨1, 1, false, false, false, 1, 1⟩) :=
  ⟨rfl, rfl⟩

/-- C2 amended: a next-page quota failure is absorbed into a soft stop like
every other HTTPException raised by a next-page fetch; the quota signal
reaches the caller only when the first-page fetch itself fails with it, for
both the raw and the sentiment fetch. -/
theorem c2_amended_quota_only_from_first_page (analyze : String → String)
    (f : Nat → Except FetchErr Page) (el : Nat → Nat) (pool : Pool)
    (mc mp tmo : Nat) (d : String) :
    (get_video_comments_raw f el pool mc mp tmo = .error (.httpException 429 d) →
      f 0 = .error (.httpException 429 d)) ∧
    (get_video_comments analyze f el pool mc mp tmo = .error (.httpException 429 d) →
      f 0 = .error (.httpException 429 d)) := by
  constructor
  · intro h
    unfold get_video_comments_raw at h
    have h2 := wrapOuter_429 _ _ h
    split at h2
    next e heq =>
      injection h2 with h3
      rw [heq, h3]
    next resp heq =>
      obtain ⟨m, hm⟩ := fetchLoop_error_pyError _ _ _ _ _ _ _ _ _ _ _ _ _ _ h2
      cases hm
  · intro h
    unfold get_video_comments at h
    have h2 := wrapOuter_429 _ _ h
    split at h2
    next e heq =>
      injection h2 with h3
      rw [heq, h3]
    next resp heq =>
      obtain ⟨m, hm⟩ := fetchLoop_error_pyError _ _ _ _ _ _ _ _ _ _ _ _ _ _ h2
      cases hm

theorem c2_amended_witness :
    quotaFetch 0 = .error (.httpException 429 "QUOTA_EXCEEDED") :=
  (c2_amended_quota_only_from_first_page (fun _ => "Neutral") quotaFetch
    elapsed0 pool1 500 5 30 "QUOTA_EXCEEDED").1 rfl

/-- C3 counterexample: with maxPages = 1 and a remote offering a second page,
the returned stats report pages_processed = 2, exceeding maxPages, while the
page-limit flag is set and the items of the tripping page are excluded (only
the one record of page 1 is returned), so the reported count is not bounded
by maxPages as claimed. -/
theorem c3_counterexample :
    (get_video_comments_raw c3Fetch elapsed0 pool1 500 1 30).map
      (fun pr => (pr.1.length, pr.2.pages_processed, pr.2.max_pages_reached,
        decide (pr.2.pages_processed ≤ 1))) = .ok (1, 2, true, false) := rfl

/-- C3 amended: the reported pages-processed count is bounded by maxPages + 1
rather than maxPages: it equals maxPages + 1 exactly when the page-limit flag
is set (the counter is incremented before the limit check, so the tripping
page is counted), it is at most maxPages whenever the flag is unset, and when
the flag is set the items of the tripping page are not added: the result is
unchanged when the content of the page fetched at index maxPages is replaced
by any other page; this holds for both the raw and the sentiment fetch. -/
theorem c3_amended_pages_bound (analyze : String → String)
    (f : Nat → Except FetchErr Page) (el : Nat → Nat) (pool : Pool)
    (mc mp tmo : Nat) (out : List CommentRecord) (st : Stats) :
    (get_video_comments_raw f el pool mc mp tmo = .ok (out, st) →
      st.pages_processed ≤ mp + 1 ∧
        (st.max_pages_reached = false → st.pages_processed ≤ mp) ∧
        (st.max_pages_reached = true → st.pages_processed = mp + 1) ∧
        (st.max_pages_reached = true → ∀ q : Page,
          get_video_comments_raw (fun k => if k = mp then Except.ok q else f k)
            el pool mc mp tmo = .ok (out, st))) ∧
    (get_video_comments analyze f el pool mc mp tmo = .ok (out, st) →
      st.pages_processed ≤ mp + 1 ∧
        (st.max_pages_reached = false → st.pages_processed ≤ mp) ∧
        (st.max_pages_reached = true → st.pages_processed = mp + 1) ∧
        (st.max_pages_reached = true → ∀ q : Page,
          get_video_comments analyze (fun k => if k = mp then Except.ok q else f k)
            el pool mc mp tmo = .ok (out, st))) := by
  constructor
  · intro h
    unfold get_video_comments_raw at h
    rw [wrapOuter_ok_iff] at h
    split at h
    next e heq => cases h
    next resp heq =>
      have hmain := fetchLoop_ok_pages f el (fun _ => "Not analyzed") mc mp tmo
        (pool.idx + 1) pool.keys.length (mp + 1) resp [] 0 0 out st (Nat.zero_le mp) h
      refine ⟨hmain.1, hmain.2.1, hmain.2.2, ?_⟩
      intro hflag q
      obtain ⟨p, hp⟩ := fetchLoop_flag_fetch_ok f el (fun _ => "Not analyzed") mc mp tmo
        (pool.idx + 1) pool.keys.length (mp + 1) resp [] 0 0 out st
        (Nat.zero_le mp) heq h hflag
      by_cases h0 : (0 : Nat) = mp
      · refine get_video_comments_raw_ok_of _ el pool mc mp tmo q (out, st) ?_ ?_
        · show (if (0 : Nat) = mp then Except.ok q else f 0) = Except.ok q
          rw [if_pos h0]
        · have hirr := fetchLoop_limit_page_content_irrelevant el
            (fun _ => "Not analyzed") mc mp tmo (pool.idx + 1) pool.keys.length
            (mp + 1) (fun k => if k = mp then Except.ok q else f k) f q resp [] 0 0
            (fun k hk => by simp [Nat.ne_of_lt hk])
            (Or.inr ⟨⟨q, by simp⟩, ⟨p, hp⟩⟩) (Or.inl h0)
          rw [hirr]
          exact h
      · refine get_video_comments_raw_ok_of _ el pool mc mp tmo resp (out, st) ?_ ?_
        · show (if (0 : Nat) = mp then Except.ok q else f 0) = Except.ok resp
          rw [if_neg h0]
          exact heq
        · have hirr := fetchLoop_limit_page_content_irrelevant el
            (fun _ => "Not analyzed") mc mp tmo (pool.idx + 1) pool.keys.length
            (mp + 1) (fun k => if k = mp then Except.ok q else f k) f resp resp [] 0 0
            (fun k hk => by simp [Nat.ne_of_lt hk])
            (Or.inr ⟨⟨q, by simp⟩, ⟨p, hp⟩⟩) (Or.inr rfl)
          rw [hirr]
          exact h
  · intro h
    unfold get_video_comments at h
    rw [wrapOuter_ok_iff] at h
    split at h
    next e heq => cases h
    next resp heq =>
      have hmain := fetchLoop_ok_pages f el analyze mc mp tmo
        (pool.idx + 1) pool.keys.length (mp + 1) resp [] 0 0 out st (Nat.zero_le mp) h
      refine ⟨hmain.1, hmain.2.1, hmain.2.2, ?_⟩
      intro hflag q
      obtain ⟨p, hp⟩ := fetchLoop_flag_fetch_ok f el analyze mc mp tmo
        (pool.idx + 1) pool.keys.length (mp + 1) resp [] 0 0 out st
        (Nat.zero_le mp) heq h hflag
      by_cases h0 : (0 : Nat) = mp
      · refine get_video_comments_ok_of analyze _ el pool mc mp tmo q (out, st) ?_ ?_
        · show (if (0 : Nat) = mp then Except.ok q else f 0) = Except.ok q
          rw [if_pos h0]
        · have hirr := fetchLoop_limit_page_content_irrelevant el
            analyze mc mp tmo (pool.idx + 1) pool.keys.length
            (mp + 1) (fun k => if k = mp then Except.ok q else f k) f q resp [] 0 0
            (fun k hk => by simp [Nat.ne_of_lt hk])
            (Or.inr ⟨⟨q, by simp⟩, ⟨p, hp⟩⟩) (Or.inl h0)
          rw [hirr]
          exact h
      · refine get_video_comments_ok_of analyze _ el pool mc mp tmo resp (out, st) ?_ ?_
        · show (if (0 : Nat) = mp then Except.ok q else f 0) = Except.ok resp
          rw [if_neg h0]
          exact heq
        · have hirr := fetchLoop_limit_page_content_irrelevant el
            analyze mc mp tmo (pool.idx + 1) pool.keys.length
            (mp + 1) (fun k => if k = mp then Except.ok q else f k) f resp resp [] 0 0
            (fun k hk => by simp [Nat.ne_of_lt hk])
            (Or.inr ⟨⟨q, by simp⟩, ⟨p, hp⟩⟩) (Or.inr rfl)
          rw [hirr]
          exact h

theorem c3_amended_witness :
    get_video_comments_raw
        (fun k => if k = 1 then Except.ok (⟨[], false⟩ : Page) else c3Fetch k)
        elapsed0 pool1 500 1 30 =
      .ok ([recOf "a"], ⟨1, 2, false, true, false, 1, 1⟩) :=
  (((c3_amended_pages_bound (fun _ => "Neutral") c3Fetch elapsed0 pool1 500 1 30
      [recOf "a"] ⟨1, 2, false, true, false, 1, 1⟩).1 rfl).2.2.2 rfl) ⟨[], false⟩

/-- C4: the raw fetch never returns more than max_comments records: each page
item is appended only while the collected count is below the limit, and the
limit check precedes the append, so the result list length is bounded by
max_comments for every remote behavior, clock and configuration. -/
theorem c4_max_items_bound (f : Nat → Except FetchErr Page) (el : Nat → Nat)
    (pool : Pool) (mc mp tmo : Nat) (out : List CommentRecord) (st : Stats)
    (h : get_video_comments_raw f el pool mc mp tmo = .ok (out, st)) :
    out.length ≤ mc := by
  unfold get_video_comments_raw at h
  rw [wrapOuter_ok_iff] at h
  split at h
  next e heq => cases h
  next resp heq =>
    exact fetchLoop_ok_len f el (fun _ => "Not analyzed") mc mp tmo (pool.idx + 1)
      pool.keys.length (mp + 1) resp [] 0 0 out st rfl (Nat.zero_le mc) h

theorem c4_witness : ([recOf "a", recOf "b"] : List CommentRecord).length ≤ 2 :=
  c4_max_items_bound c4Fetch elapsed0 pool1 2 5 30 [recOf "a", recOf "b"]
    ⟨2, 1, true, false, false, 1, 1⟩ rfl

set_option maxRecDepth 100000 in
/-- C6: with maxItems = 150 and a remote with two pages of 100 items each,
the raw fetch returns exactly 150 records, reports max_comments_reached and
pages_processed = 2. -/
theorem c6_scenario :
    (get_video_comments_raw c6Fetch elapsed0 pool1 150 5 30).map
      (fun pr => (pr.1.length, pr.2.max_comments_reached, pr.2.pages_processed)) =
    .ok (150, true, 2) := rfl

/-- C9: with timeout_seconds = 0 and any positive elapsed reading at the
first loop check, the fetch stops immediately after the first page fetch:
the timeout flag is set, no page is processed and no item is returned, and
the result is independent of the remote beyond the first page (any remote
agreeing on page 0 yields the same outcome). -/
theorem c9_timeout_zero (f g : Nat → Except FetchErr Page) (el : Nat → Nat)
    (pool : Pool) (mc mp : Nat) (p0 : Page)
    (hf : f 0 = .ok p0) (hg : g 0 = f 0) (hel : 0 < el 0) :
    get_video_comments_raw f el pool mc mp 0 =
      .ok ([], ⟨0, 0, false, false, true, pool.idx + 1, pool.keys.length⟩) ∧
    get_video_comments_raw g el pool mc mp 0 =
      get_video_comments_raw f el pool mc mp 0 := by
  have key : ∀ (h : Nat → Except FetchErr Page), h 0 = .ok p0 →
      get_video_comments_raw h el pool mc mp 0 =
        .ok ([], ⟨0, 0, false, false, true, pool.idx + 1, pool.keys.length⟩) := by
    intro h hh
    unfold get_video_comments_raw
    rw [hh]
    simp only [fetchLoop]
    rw [if_pos hel]
    rfl
  exact ⟨key f hf, by rw [key f hf, key g (hg.trans hf)]⟩

set_option maxRecDepth 4096 in
theorem c9_witness :
    get_video_comments_raw c4Fetch elapsed1 pool1 500 5 0 =
      .ok ([], ⟨0, 0, false, false, true, 1, 1⟩) ∧
    get_video_comments_raw c4Fetch elapsed1 pool1 500 5 0 =
      get_video_comments_raw c4Fetch elapsed1 pool1 500 5 0 :=
  c9_timeout_zero c4Fetch c4Fetch elapsed1 pool1 500 5
    ⟨[goodItem "a", goodItem "b", goodItem "c"], false⟩ rfl rfl (by decide)

/-- C10: an item whose conversion raises is silently skipped: below the item
limit, processing a malformed item leaves the accumulator, the count and the
flag exactly as if the item were absent, and a concrete natural-end fetch
over a page with one malformed item among three succeeds with two records,
no flags set and no error, returning fewer records than the remote
delivered. -/
theorem c10_bad_items_skipped :
    (∀ (sent : String → String) (mc : Nat) (m : String) (rest : List RawItem)
       (acc : List CommentRecord) (total : Nat), total < mc →
       processItems sent mc (RawItem.bad m :: rest) acc total =
         processItems sent mc rest acc total) ∧
    ((c10Fetch 0).map (fun p => p.items.length) = .ok 3 ∧
     get_video_comments_raw c10Fetch elapsed0 pool1 500 5 30 =
       .ok ([recOf "a", recOf "c"], ⟨2, 1, false, false, false, 1, 1⟩)) := by
  constructor
  · intro sent mc m rest acc total hlt
    simp only [processItems]
    rw [if_neg (by omega)]
  · exact ⟨rfl, rfl⟩

theorem c10_witness :
    processItems (fun _ => "Not analyzed") 5 [RawItem.bad "x"] [] 0 =
      processItems (fun _ => "Not analyzed") 5 [] [] 0 :=
  c10_bad_items_skipped.1 (fun _ => "Not analyzed") 5 "x" [] [] 0 (by decide)

/-- C7 counterexample: with maxItems = 50 and the tech pool of 20 comments,
the generator exhausts the pool (returns all 20 = min(50, 20) records, fewer
than requested) yet reports max_comments_reached = false, contrary to the
claim that the item-limit flag is true when the pool was exhausted. -/
theorem c7_counterexample :
    (generate_demo_comments rng0 "vid" 50 "tech").1.length = 20 ∧
    (generate_demo_comments rng0 "vid" 50 "tech").2.max_comments_reached = false :=
  ⟨rfl, rfl⟩

/-- C7 amended: the generator produces exactly min(maxItems, pool size)
records, each carrying the placeholder sentiment, with the demo_mode marker
set; its item-limit flag is true exactly when the generated count reached
maxItems, that is when maxItems is at most the pool size, and not when the
pool was exhausted while smaller than maxItems. -/
theorem c7_demo_generator (rng : DemoRng) (vid : String) (mc : Nat)
    (cat : String) :
    (generate_demo_comments rng vid mc cat).1.length =
      min mc (demoPool cat).length ∧
    (generate_demo_comments rng vid mc cat).1.all
      (fun r => r.sentiment == "Not analyzed") = true ∧
    (generate_demo_comments rng vid mc cat).2.demo_mode = true ∧
    ((generate_demo_comments rng vid mc cat).2.max_comments_reached = true ↔
      mc ≤ (demoPool cat).length) := by
  refine ⟨?_, ?_, rfl, ?_⟩
  · simp [generate_demo_comments]
  · refine List.all_eq_true.mpr ?_
    intro r hr
    simp only [generate_demo_comments, List.mem_map, List.mem_range] at hr
    obtain ⟨i, -, hr⟩ := hr
    rw [← hr]
    rfl
  · simp only [generate_demo_comments, List.length_map, List.length_range,
      decide_eq_true_eq]
    omega

end YT
